import Mathlib

/-!
Shallow embedding of the Permit-To-Work application (src/ptw.py).

Embedded here: the risk engine (get_risk_level_and_color,
calculate_risk_assessment_details), the permit table with its CSV-backed
persistence (load_data, save_data), the submission handler of the
"Issue New Permit" form, and the supervisor review handlers
(approve_button / reject_button) of the "Review Permits" page.

Modelling conventions: Python ints are Int, Python strings are String,
a pandas DataFrame is a header list plus a list of rows of strings
(the tabular abstraction pandas to_csv/read_csv round-trips), the side
effects of datetime.now() (permit ids, timestamps) are explicit
parameters, and Python exceptions on handled paths are Except/Option.
-/

namespace PTW

/-- Values a Python caller may pass to get_risk_level_and_color: an int, or a
non-int (modelled as a string, the only other value type in this program). -/
inductive PyVal where
| int (n : Int)
| str (s : String)
deriving DecidableEq, Repr

/-- Python tuples returned by get_risk_level_and_color: the usual 2-tuple
(level, color), or the 3-tuple from the non-int guard at ptw.py:86. -/
inductive PyTuple where
| pair (level color : String)
| triple (level color : String) (extra : Int)
deriving DecidableEq, Repr

/-- ptw.py:84-95, get_risk_level_and_color.  Non-int input returns the
3-tuple ("Invalid", "gray", 0); int input falls through the threshold
chain and returns a 2-tuple. -/
def get_risk_level_and_color : PyVal → PyTuple
| .str _ => .triple "Invalid" "gray" 0
| .int n =>
    if 1 ≤ n ∧ n ≤ 4 then .pair "Low" "#28a745"
    else if 5 ≤ n ∧ n ≤ 12 then .pair "Medium" "#ffc107"
    else if 13 ≤ n ∧ n ≤ 25 then .pair "High" "#dc3545"
    else .pair (if n ≠ 0 then "Undefined" else "N/A") "gray"

/-- Python 2-element tuple unpacking (`level, color = ...` at ptw.py:103):
succeeds on a 2-tuple, raises ValueError (modelled as none) on a 3-tuple. -/
def unpack2 : PyTuple → Option (String × String)
| .pair a b => some (a, b)
| .triple _ _ _ => none

/-- Characters stripped by Python int() before parsing. -/
def stripEnds (cs : List Char) : List Char :=
  ((cs.dropWhile (fun c => c.isWhitespace)).reverse.dropWhile
    (fun c => c.isWhitespace)).reverse

/-- Decimal value of a digit string. -/
def digitsToNat (cs : List Char) : Nat :=
  cs.foldl (fun a c => 10 * a + (c.toNat - 48)) 0

/-- Python int(s) on a string: strip surrounding whitespace, optional sign,
then a non-empty run of decimal digits; none models the ValueError branch.
(Digit-group underscores accepted by CPython are not modelled; no input in
this program uses them.) -/
def pyToInt (s : String) : Option Int :=
  match stripEnds s.toList with
  | [] => none
  | c :: rest =>
      let signed : Int × List Char :=
        if c = '-' then (-1, rest) else if c = '+' then (1, rest) else (1, c :: rest)
      if !signed.2.isEmpty && signed.2.all Char.isDigit then
        some (signed.1 * (digitsToNat signed.2 : Int))
      else none

/-- ptw.py:98-102, the try block of calculate_risk_assessment_details:
`l * s if (1 <= l <= 5 and 1 <= s <= 5) else 0`, and 0 when either
int() conversion raises. -/
def riskScoreInt (likelihood_str severity_str : String) : Int :=
  match pyToInt likelihood_str, pyToInt severity_str with
  | some l, some s => if 1 ≤ l ∧ l ≤ 5 ∧ 1 ≤ s ∧ s ≤ 5 then l * s else 0
  | _, _ => 0

/-- ptw.py:97-104, calculate_risk_assessment_details.  The 2-element
unpacking of get_risk_level_and_color's result is kept explicit: none
would model an uncaught ValueError escaping the function. -/
def calculate_risk_assessment_details (likelihood_str severity_str : String) :
    Option (Int × String × String) :=
  match unpack2 (get_risk_level_and_color (.int (riskScoreInt likelihood_str severity_str))) with
  | some (level, color) => some (riskScoreInt likelihood_str severity_str, level, color)
  | none => none

/-- The fixed level-to-color display mapping of ptw.py:87-94, stated as a
function of the level name alone. -/
def levelColor (level : String) : String :=
  if level = "Low" then "#28a745"
  else if level = "Medium" then "#ffc107"
  else if level = "High" then "#dc3545"
  else "gray"

/-! ## Risk-engine lemmas -/

/-- On int input get_risk_level_and_color always returns a 2-tuple. -/
theorem grlc_int_pair (n : Int) :
    ∃ level color, get_risk_level_and_color (.int n) = .pair level color := by
  show (∃ level color,
    (if 1 ≤ n ∧ n ≤ 4 then PyTuple.pair "Low" "#28a745"
     else if 5 ≤ n ∧ n ≤ 12 then PyTuple.pair "Medium" "#ffc107"
     else if 13 ≤ n ∧ n ≤ 25 then PyTuple.pair "High" "#dc3545"
     else PyTuple.pair (if n ≠ 0 then "Undefined" else "N/A") "gray") =
      PyTuple.pair level color)
  split_ifs <;> exact ⟨_, _, rfl⟩

/-- calculate_risk_assessment_details always succeeds and returns the try
block's score paired with some level and color. -/
theorem calc_eq_some (l s : String) :
    ∃ level color,
      get_risk_level_and_color (.int (riskScoreInt l s)) = .pair level color ∧
      calculate_risk_assessment_details l s = some (riskScoreInt l s, level, color) := by
  obtain ⟨level, color, h⟩ := grlc_int_pair (riskScoreInt l s)
  refine ⟨level, color, h, ?_⟩
  unfold calculate_risk_assessment_details
  rw [h]
  rfl

/-- Unfolding of get_risk_level_and_color on an int input. -/
theorem grlc_int_eq (n : Int) :
    get_risk_level_and_color (.int n) =
      (if 1 ≤ n ∧ n ≤ 4 then PyTuple.pair "Low" "#28a745"
       else if 5 ≤ n ∧ n ≤ 12 then PyTuple.pair "Medium" "#ffc107"
       else if 13 ≤ n ∧ n ≤ 25 then PyTuple.pair "High" "#dc3545"
       else PyTuple.pair (if n ≠ 0 then "Undefined" else "N/A") "gray") := rfl

/-- When the try block's score is 0, the result is (0, "N/A", "gray"). -/
theorem calc_zero (l s : String) (h : riskScoreInt l s = 0) :
    calculate_risk_assessment_details l s = some (0, "N/A", "gray") := by
  unfold calculate_risk_assessment_details
  rw [h]
  rfl

/-- C1: calculate_risk_assessment_details is total over all string inputs
(always returns a value, never raises); when both inputs parse as integers
in [1,5] the returned score is their product; when either input fails to
parse or parses outside [1,5], the score is 0 and the level is "N/A". -/
theorem C1_score_total_product (l s : String) :
    (calculate_risk_assessment_details l s).isSome = true ∧
    (∀ li si : Int, pyToInt l = some li → pyToInt s = some si →
      1 ≤ li → li ≤ 5 → 1 ≤ si → si ≤ 5 →
      ∃ level color,
        calculate_risk_assessment_details l s = some (li * si, level, color)) ∧
    (((∀ li si : Int, pyToInt l = some li → pyToInt s = some si →
        ¬(1 ≤ li ∧ li ≤ 5 ∧ 1 ≤ si ∧ si ≤ 5)) ∨
      pyToInt l = none ∨ pyToInt s = none) →
      calculate_risk_assessment_details l s = some (0, "N/A", "gray")) := by
  obtain ⟨lev, col, hg, hc⟩ := calc_eq_some l s
  refine ⟨by rw [hc]; rfl, ?_, ?_⟩
  · intro li si hl hs h1 h2 h3 h4
    have hsc : riskScoreInt l s = li * si := by
      simp [riskScoreInt, hl, hs, h1, h2, h3, h4]
    rw [hsc] at hc
    exact ⟨lev, col, hc⟩
  · intro hout
    refine calc_zero l s ?_
    unfold riskScoreInt
    cases hl : pyToInt l with
    | none => rfl
    | some li =>
        cases hs : pyToInt s with
        | none => rfl
        | some si =>
            rcases hout with hrange | hnone | hnone
            · exact if_neg (hrange li si hl hs)
            · rw [hl] at hnone; cases hnone
            · rw [hs] at hnone; cases hnone

/-- C1 witness: likelihood "3" and severity "4" give score 12; a
non-numeric likelihood gives (0, "N/A", "gray"). -/
theorem C1_score_total_product_witness :
    (∃ level color,
      calculate_risk_assessment_details "3" "4" = some (3 * 4, level, color)) ∧
    calculate_risk_assessment_details "abc" "4" = some (0, "N/A", "gray") := by
  constructor
  · exact (C1_score_total_product "3" "4").2.1 3 4 (by decide) (by decide)
      (by decide) (by decide) (by decide) (by decide)
  · exact (C1_score_total_product "abc" "4").2.2 (Or.inr (Or.inl (by decide)))

/-- C2: fixed level thresholds of get_risk_level_and_color: 1-4 Low,
5-12 Medium, 13-25 High, anything outside 0-25 Undefined; the boundary
scores 4, 5, 12, 13, 25 map to Low, Medium, Medium, High, High; and the
color in every returned 2-tuple is the fixed function of the level. -/
theorem C2_level_thresholds :
    (∀ n : Int, 1 ≤ n → n ≤ 4 →
      get_risk_level_and_color (.int n) = .pair "Low" "#28a745") ∧
    (∀ n : Int, 5 ≤ n → n ≤ 12 →
      get_risk_level_and_color (.int n) = .pair "Medium" "#ffc107") ∧
    (∀ n : Int, 13 ≤ n → n ≤ 25 →
      get_risk_level_and_color (.int n) = .pair "High" "#dc3545") ∧
    (∀ n : Int, n < 0 ∨ 25 < n →
      get_risk_level_and_color (.int n) = .pair "Undefined" "gray") ∧
    (get_risk_level_and_color (.int 4) = .pair "Low" "#28a745" ∧
     get_risk_level_and_color (.int 5) = .pair "Medium" "#ffc107" ∧
     get_risk_level_and_color (.int 12) = .pair "Medium" "#ffc107" ∧
     get_risk_level_and_color (.int 13) = .pair "High" "#dc3545" ∧
     get_risk_level_and_color (.int 25) = .pair "High" "#dc3545") ∧
    (∀ (n : Int) (level color : String),
      get_risk_level_and_color (.int n) = .pair level color →
      color = levelColor level) := by
  refine ⟨?_, ?_, ?_, ?_, ⟨rfl, rfl, rfl, rfl, rfl⟩, ?_⟩
  · intro n h1 h2
    rw [grlc_int_eq, if_pos ⟨h1, h2⟩]
  · intro n h1 h2
    rw [grlc_int_eq, if_neg (by omega), if_pos ⟨h1, h2⟩]
  · intro n h1 h2
    rw [grlc_int_eq, if_neg (by omega), if_neg (by omega), if_pos ⟨h1, h2⟩]
  · intro n h
    rw [grlc_int_eq, if_neg (by omega), if_neg (by omega), if_neg (by omega),
      if_pos (by omega : n ≠ 0)]
  · intro n level color h
    rw [grlc_int_eq] at h
    split_ifs at h <;> (injection h with h1 h2; subst h1; subst h2; rfl)

/-- C2 witness: instances of the thresholds at concrete scores 3, 8, 20
and -7, obtained from the theorem itself. -/
theorem C2_level_thresholds_witness :
    get_risk_level_and_color (.int 3) = .pair "Low" "#28a745" ∧
    get_risk_level_and_color (.int 8) = .pair "Medium" "#ffc107" ∧
    get_risk_level_and_color (.int 20) = .pair "High" "#dc3545" ∧
    get_risk_level_and_color (.int (-7)) = .pair "Undefined" "gray" :=
  ⟨C2_level_thresholds.1 3 (by decide) (by decide),
   C2_level_thresholds.2.1 8 (by decide) (by decide),
   C2_level_thresholds.2.2.1 20 (by decide) (by decide),
   C2_level_thresholds.2.2.2.1 (-7) (Or.inl (by decide))⟩

/-- C10: get_risk_level_and_color returns a 2-tuple for every int input and
the 3-tuple ("Invalid", "gray", 0) for every non-int input; since
calculate_risk_assessment_details always passes an int, its 2-element
unpacking of the result never fails (it always returns a value). -/
theorem C10_tuple_arity_safety :
    (∀ n : Int, ∃ level color,
      get_risk_level_and_color (.int n) = .pair level color) ∧
    (∀ s : String,
      get_risk_level_and_color (.str s) = .triple "Invalid" "gray" 0) ∧
    (∀ l s : String, (calculate_risk_assessment_details l s).isSome = true) := by
  refine ⟨grlc_int_pair, fun s => rfl, fun l s => ?_⟩
  obtain ⟨lev, col, _, hc⟩ := calc_eq_some l s
  rw [hc]
  rfl

/-! ## Permit records and the CSV-backed table -/

/-- One row of the work_permits table, with the thirteen columns of
EXPECTED_COLUMNS (ptw.py:37-51), every value stored as a string exactly
as in the DataFrame. -/
structure Permit where
  permitId : String
  requester : String
  location : String
  workType : String
  description : String
  likelihood : String
  severity : String
  riskAssessment : String
  precautions : String
  issueDate : String
  status : String
  supervisorNotes : String
  supervisorActionDate : String
deriving DecidableEq, Repr

/-- The keys of EXPECTED_COLUMNS, in declaration order (ptw.py:37-51). -/
def expectedColumns : List String :=
  ["Permit ID", "Requester", "Location", "Work Type", "Description",
   "Likelihood", "Severity", "Risk Assessment", "Precautions",
   "Issue Date", "Status", "Supervisor Notes", "Supervisor Action Date"]

/-- A Permit as a CSV/DataFrame row in EXPECTED_COLUMNS order. -/
def toRow (p : Permit) : List String :=
  [p.permitId, p.requester, p.location, p.workType, p.description,
   p.likelihood, p.severity, p.riskAssessment, p.precautions,
   p.issueDate, p.status, p.supervisorNotes, p.supervisorActionDate]

/-- A row in EXPECTED_COLUMNS order read back as a Permit; short rows are
padded with empty strings, as pandas string cells with
keep_default_na=False read missing values. -/
def ofRow (r : List String) : Permit :=
  { permitId := r.getD 0 "", requester := r.getD 1 "", location := r.getD 2 "",
    workType := r.getD 3 "", description := r.getD 4 "",
    likelihood := r.getD 5 "", severity := r.getD 6 "",
    riskAssessment := r.getD 7 "", precautions := r.getD 8 "",
    issueDate := r.getD 9 "", status := r.getD 10 "",
    supervisorNotes := r.getD 11 "", supervisorActionDate := r.getD 12 "" }

/-- The state of the work_permits.csv file: absent, an empty file (which
pandas reports as EmptyDataError), or a header list plus string rows (the
tabular content pandas to_csv writes and read_csv with dtype=str,
keep_default_na=False reads back). -/
inductive FileState where
| missing
| empty
| table (cols : List String) (rows : List (List String))
deriving DecidableEq, Repr

/-- ptw.py:73-78, save_data: write df restricted to EXPECTED_COLUMNS, in
order, as the whole file. -/
def save_data (tbl : List Permit) : FileState :=
  .table expectedColumns (tbl.map toRow)

/-- First index of a column name in the file's header, none when absent. -/
def colIdx : List String → String → Option Nat
| [], _ => none
| c :: rest, name => if c = name then some 0 else (colIdx rest name).map (· + 1)

/-- ptw.py:58-61: backfill each EXPECTED_COLUMNS column absent from the
file with empty strings, then reorder the row to EXPECTED_COLUMNS order. -/
def reorderRow (cols : List String) (row : List String) : List String :=
  expectedColumns.map (fun name =>
    match colIdx cols name with
    | some i => row.getD i ""
    | none => "")

/-- ptw.py:54-71, load_data: a missing file and an empty file (the
EmptyDataError branch) load as zero records; otherwise every row is
backfilled and reordered to EXPECTED_COLUMNS.  The fillna/astype(str)
calls at ptw.py:62-63 are identities on string cells and are omitted. -/
def load_data : FileState → List Permit
| .missing => []
| .empty => []
| .table cols rows => rows.map (fun r => ofRow (reorderRow cols r))

/-- Lookup of the first record with the given Permit ID, as the review
page's `.index[0]` lookup at ptw.py:293 finds it; none models the
IndexError / NotFound outcome. -/
def findById : List Permit → String → Option Permit
| [], _ => none
| p :: rest, id => if p.permitId = id then some p else findById rest id

/-- In-memory application state: the cached DataFrame
st.session_state.df_permits plus the backing file. -/
structure StoreState where
  table : List Permit
  file : FileState
deriving DecidableEq, Repr

/-! ## The submission handler (Issue New Permit form, ptw.py:154-238) -/

/-- Typed outcomes of the handlers: the st.warning validation messages, or
the not-found outcome of the review page (an id absent from its pending
selectbox, or the IndexError branch at ptw.py:338). -/
inductive StoreError where
| notFound
| validation (msgs : List String)
deriving DecidableEq, Repr

/-- The "Other (Specify in Description)" precaution option (ptw.py:32). -/
def otherOption : String := "Other (Specify in Description)"

/-- The fields the Issue New Permit form submits (ptw.py:156-169, 244-246).
other_precautions_details is the free-text elaboration, which the page
leaves "" unless the Other option is selected. -/
structure CreateInput where
  requester : String
  location : String
  work_type : String
  description : String
  selected_precautions : List String
  other_precautions_details : String
  likelihood : String
  severity : String
deriving DecidableEq, Repr

/-- ptw.py:180-189, the loop building final_precautions_list and its error
messages, in submission order: a non-Other item is kept as is; the Other
item becomes "Other: details" when details are given and an error message
otherwise. -/
def buildPrecautions (details : String) : List String → List String × List String
| [] => ([], [])
| item :: rest =>
    let acc := buildPrecautions details rest
    if item = otherOption then
      if details ≠ "" then (("Other: " ++ details) :: acc.1, acc.2)
      else (acc.1, "If 'Other' precaution is selected, please specify the details." :: acc.2)
    else (item :: acc.1, acc.2)

/-- ptw.py:174-193, the full error_messages list of a submission, in the
order the handler appends them. -/
def createErrors (inp : CreateInput) : List String :=
  let e1 :=
    (if inp.requester = "" then ["Requester Name is required."] else []) ++
    (if inp.location = "" then ["Work Location is required."] else []) ++
    (if inp.work_type = "" then ["Work Type must be selected."] else []) ++
    (if inp.description = "" then ["Work Description is required."] else [])
  let built := buildPrecautions inp.other_precautions_details inp.selected_precautions
  let e3 :=
    if built.1 = [] ∧
        ¬(otherOption ∈ inp.selected_precautions ∧ inp.other_precautions_details ≠ "") then
      if inp.selected_precautions = [] then
        ["At least one precaution must be selected, or 'Other' specified."]
      else []
    else []
  e1 ++ built.2 ++ e3

/-- ptw.py:199-230, the new_permit_data row built on a successful
submission.  The effects of datetime.now() — the fresh permit id of
generate_permit_id (ptw.py:80-81) and the issue date — are the explicit
parameters permit_id and issue_date.  The stored Risk Assessment is the
score component of calculate_risk_assessment_details, which by
calc_eq_some is riskScoreInt. -/
def newPermit (inp : CreateInput) (permit_id issue_date : String) : Permit :=
  { permitId := permit_id,
    requester := inp.requester,
    location := inp.location,
    workType := inp.work_type,
    description := inp.description,
    likelihood := inp.likelihood,
    severity := inp.severity,
    riskAssessment := toString (riskScoreInt inp.likelihood inp.severity),
    precautions :=
      (if (buildPrecautions inp.other_precautions_details inp.selected_precautions).1 ≠ [] then
        String.intercalate ", "
          (buildPrecautions inp.other_precautions_details inp.selected_precautions).1
      else "None specified"),
    issueDate := issue_date,
    status := "Pending",
    supervisorNotes := "",
    supervisorActionDate := "" }

/-- ptw.py:173-232, the submit branch of the Issue New Permit form: on any
validation error the state is untouched and the messages are surfaced; on
success the new record is appended at the end and the whole table is saved
to the file before returning. -/
def runCreate (st : StoreState) (inp : CreateInput) (permit_id issue_date : String) :
    StoreState × Except StoreError Permit :=
  if createErrors inp ≠ [] then
    (st, .error (.validation (createErrors inp)))
  else
    let p := newPermit inp permit_id issue_date
    let tbl := st.table ++ [p]
    ({ table := tbl, file := save_data tbl }, .ok p)

/-! ## The review handlers (Review Permits page, ptw.py:281-343) -/

/-- The supervisor's decision buttons. -/
inductive Outcome where
| approved
| rejected
deriving DecidableEq, Repr

/-- The Permit IDs the Review Permits page offers in its selectbox: those
of the rows whose Status is "Pending", in table order (ptw.py:287-289). -/
def pendingIds (tbl : List Permit) : List String :=
  (tbl.filter (fun p => p.status == "Pending")).map (fun p => p.permitId)

/-- Field updates of the approve (ptw.py:318-322) and reject
(ptw.py:327-332) handlers on the selected row: Status, Supervisor Notes
(defaulted to the fixed placeholder on an approval without notes), and
Supervisor Action Date set to the current time. -/
def applyDecision (o : Outcome) (notes action_date : String) (p : Permit) : Permit :=
  match o with
  | .approved =>
      { p with status := "Approved",
               supervisorNotes := if notes ≠ "" then notes else "Approved without notes.",
               supervisorActionDate := action_date }
  | .rejected =>
      { p with status := "Rejected",
               supervisorNotes := notes,
               supervisorActionDate := action_date }

/-- Update of the first row carrying the given Permit ID, as the
`.loc[permit_index, ...]` writes mutate the row found at ptw.py:293. -/
def updateFirst (tbl : List Permit) (id : String) (f : Permit → Permit) : List Permit :=
  match tbl with
  | [] => []
  | p :: rest => if p.permitId = id then f p :: rest else p :: updateFirst rest id f

/-- ptw.py:281-340, a supervisor decision on one permit id, end to end: an
id that is not among the page's pending options cannot be decided (the
selectbox at ptw.py:289 offers only pendingIds; together with the
IndexError branch at ptw.py:338 this is the NotFound outcome); a rejection
with empty notes only surfaces the warning at ptw.py:337 and changes
nothing; otherwise the row's fields are updated and the whole table saved
before the page reruns.  action_date is the datetime.now() timestamp. -/
def decide (st : StoreState) (id : String) (o : Outcome) (notes action_date : String) :
    StoreState × Except StoreError Permit :=
  if id ∈ pendingIds st.table then
    match findById st.table id with
    | none => (st, .error .notFound)
    | some p =>
        match o with
        | .approved =>
            let tbl := updateFirst st.table id (applyDecision .approved notes action_date)
            ({ table := tbl, file := save_data tbl },
             .ok (applyDecision .approved notes action_date p))
        | .rejected =>
            if notes ≠ "" then
              let tbl := updateFirst st.table id (applyDecision .rejected notes action_date)
              ({ table := tbl, file := save_data tbl },
               .ok (applyDecision .rejected notes action_date p))
            else
              (st, .error (.validation ["Supervisor notes are required for rejection."]))
  else (st, .error .notFound)

/-! ## Table lemmas -/

/-- Membership in the pending selectbox options. -/
theorem mem_pendingIds_iff (tbl : List Permit) (id : String) :
    id ∈ pendingIds tbl ↔ ∃ p, p ∈ tbl ∧ p.permitId = id ∧ p.status = "Pending" := by
  constructor
  · intro h
    obtain ⟨p, hp, hid⟩ := List.mem_map.mp h
    obtain ⟨hmem, hst⟩ := List.mem_filter.mp hp
    exact ⟨p, hmem, hid, by simpa using hst⟩
  · rintro ⟨p, hmem, hid, hst⟩
    exact List.mem_map.mpr ⟨p, List.mem_filter.mpr ⟨hmem, by simp [hst]⟩, hid⟩

/-- A found record is in the table and carries the looked-up id. -/
theorem findById_mem {tbl : List Permit} {id : String} {p : Permit}
    (h : findById tbl id = some p) : p ∈ tbl ∧ p.permitId = id := by
  induction tbl with
  | nil => cases h
  | cons q rest ih =>
      simp only [findById] at h
      by_cases hq : q.permitId = id
      · rw [if_pos hq] at h
        cases h
        exact ⟨List.mem_cons_self _ _, hq⟩
      · rw [if_neg hq] at h
        obtain ⟨hm, hid⟩ := ih h
        exact ⟨List.mem_cons_of_mem _ hm, hid⟩

/-- Lookup of an id no record carries fails. -/
theorem findById_eq_none {tbl : List Permit} {id : String}
    (h : id ∉ tbl.map Permit.permitId) : findById tbl id = none := by
  induction tbl with
  | nil => rfl
  | cons q rest ih =>
      simp only [List.map_cons, List.mem_cons, not_or] at h
      simp only [findById]
      rw [if_neg (fun hq => h.1 hq.symm)]
      exact ih h.2

/-- Lookup skips a prefix in which the id does not occur. -/
theorem findById_append_of_none {tbl l2 : List Permit} {id : String}
    (h : findById tbl id = none) : findById (tbl ++ l2) id = findById l2 id := by
  induction tbl with
  | nil => rfl
  | cons q rest ih =>
      simp only [findById] at h
      by_cases hq : q.permitId = id
      · rw [if_pos hq] at h
        cases h
      · rw [if_neg hq] at h
        rw [List.cons_append]
        simp only [findById]
        rw [if_neg hq]
        exact ih h

/-- Under unique Permit IDs, any record carrying the looked-up id is the
found one. -/
theorem findById_unique {tbl : List Permit} {id : String} {p q : Permit}
    (hnd : (tbl.map Permit.permitId).Nodup)
    (h : findById tbl id = some p) (hq : q ∈ tbl) (hqid : q.permitId = id) : q = p := by
  induction tbl with
  | nil => cases h
  | cons r rest ih =>
      rw [List.map_cons, List.nodup_cons] at hnd
      simp only [findById] at h
      rcases List.mem_cons.mp hq with rfl | hq2
      · rw [if_pos hqid] at h
        injection h
      · by_cases hr : r.permitId = id
        · exfalso
          apply hnd.1
          rw [hr, ← hqid]
          exact List.mem_map_of_mem _ hq2
        · rw [if_neg hr] at h
          exact ih hnd.2 h hq2

/-- An id-preserving update of one row leaves the column of Permit IDs
unchanged. -/
theorem updateFirst_map_permitId {tbl : List Permit} {id : String} {f : Permit → Permit}
    (hf : ∀ p, (f p).permitId = p.permitId) :
    (updateFirst tbl id f).map Permit.permitId = tbl.map Permit.permitId := by
  induction tbl with
  | nil => rfl
  | cons q rest ih =>
      simp only [updateFirst]
      by_cases hq : q.permitId = id
      · rw [if_pos hq]
        simp [hf]
      · rw [if_neg hq]
        simp [ih]

/-- Looking up the updated id finds the updated record. -/
theorem findById_updateFirst {tbl : List Permit} {id : String} {p : Permit}
    (f : Permit → Permit) (hf : ∀ q, (f q).permitId = q.permitId)
    (h : findById tbl id = some p) :
    findById (updateFirst tbl id f) id = some (f p) := by
  induction tbl with
  | nil => cases h
  | cons q rest ih =>
      simp only [findById] at h
      by_cases hq : q.permitId = id
      · rw [if_pos hq] at h
        injection h with hqp
        subst hqp
        simp only [updateFirst]
        rw [if_pos hq]
        simp only [findById]
        rw [if_pos (show (f q).permitId = id by rw [hf]; exact hq)]
      · rw [if_neg hq] at h
        simp only [updateFirst]
        rw [if_neg hq]
        simp only [findById]
        rw [if_neg hq]
        exact ih h

/-- applyDecision never touches the Permit ID column. -/
theorem applyDecision_permitId (o : Outcome) (notes action_date : String) (p : Permit) :
    (applyDecision o notes action_date p).permitId = p.permitId := by
  cases o <;> rfl

/-- Reordering a saved row against the full header is the identity, so a
row written by save_data reads back as the same record. -/
theorem ofRow_reorder_toRow (p : Permit) :
    ofRow (reorderRow expectedColumns (toRow p)) = p := by
  cases p
  rfl

/-- load_data inverts save_data on every table. -/
theorem load_save (tbl : List Permit) : load_data (save_data tbl) = tbl := by
  show (tbl.map toRow).map (fun r => ofRow (reorderRow expectedColumns r)) = tbl
  rw [List.map_map]
  have hcomp : ((fun r => ofRow (reorderRow expectedColumns r)) ∘ toRow) = id := by
    funext p
    exact ofRow_reorder_toRow p
  rw [hcomp, List.map_id]

/-- A record in the table makes the lookup of its id succeed. -/
theorem findById_ne_none {tbl : List Permit} {q : Permit} {id : String}
    (hq : q ∈ tbl) (hid : q.permitId = id) : findById tbl id ≠ none := by
  subst hid
  induction tbl with
  | nil => cases hq
  | cons r rest ih =>
      simp only [findById]
      by_cases hr : r.permitId = q.permitId
      · rw [if_pos hr]
        simp
      · rw [if_neg hr]
        rcases List.mem_cons.mp hq with rfl | h2
        · exact absurd rfl hr
        · exact ih h2

/-! ## decide unfolding lemmas -/

/-- decide on an id that the pending selectbox does not offer. -/
theorem decide_not_mem (st : StoreState) (id : String) (o : Outcome)
    (notes action_date : String) (h : id ∉ pendingIds st.table) :
    decide st id o notes action_date = (st, .error .notFound) := by
  unfold decide
  rw [if_neg h]

/-- decide, approve branch. -/
theorem decide_approved_eq (st : StoreState) (id : String) (notes action_date : String)
    (p : Permit) (hmem : id ∈ pendingIds st.table)
    (hfind : findById st.table id = some p) :
    decide st id .approved notes action_date =
      ({ table := updateFirst st.table id (applyDecision .approved notes action_date),
         file := save_data (updateFirst st.table id (applyDecision .approved notes action_date)) },
       .ok (applyDecision .approved notes action_date p)) := by
  unfold decide
  rw [if_pos hmem, hfind]

/-- decide, reject branch with non-empty notes. -/
theorem decide_rejected_ok_eq (st : StoreState) (id : String) (notes action_date : String)
    (p : Permit) (hmem : id ∈ pendingIds st.table)
    (hfind : findById st.table id = some p) (hnotes : notes ≠ "") :
    decide st id .rejected notes action_date =
      ({ table := updateFirst st.table id (applyDecision .rejected notes action_date),
         file := save_data (updateFirst st.table id (applyDecision .rejected notes action_date)) },
       .ok (applyDecision .rejected notes action_date p)) := by
  unfold decide
  rw [if_pos hmem, hfind]
  exact if_pos hnotes

/-- decide, reject branch with empty notes: only the warning. -/
theorem decide_rejected_empty_eq (st : StoreState) (id : String) (action_date : String)
    (p : Permit) (hmem : id ∈ pendingIds st.table)
    (hfind : findById st.table id = some p) :
    decide st id .rejected "" action_date =
      (st, .error (.validation ["Supervisor notes are required for rejection."])) := by
  unfold decide
  rw [if_pos hmem, hfind]
  rfl

/-- Under unique ids, decide on an already-decided record's id fails with
notFound and changes nothing. -/
theorem decide_of_decided (st : StoreState) (id : String) (o : Outcome)
    (notes action_date : String)
    (hnd : (st.table.map Permit.permitId).Nodup)
    (p : Permit) (hfind : findById st.table id = some p) (hnp : p.status ≠ "Pending") :
    decide st id o notes action_date = (st, .error .notFound) := by
  refine decide_not_mem st id o notes action_date (fun hmem => ?_)
  obtain ⟨q, hqmem, hqid, hqst⟩ := (mem_pendingIds_iff st.table id).mp hmem
  have hqp : q = p := findById_unique hnd hfind hqmem hqid
  rw [hqp] at hqst
  exact hnp hqst

/-- What a successful decide implies: the id was pending, the record found,
the table updated at that record and saved. -/
theorem decide_ok_inv (st st' : StoreState) (id : String) (o : Outcome)
    (notes action_date : String) (p' : Permit)
    (heq : decide st id o notes action_date = (st', .ok p')) :
    ∃ p, findById st.table id = some p ∧ id ∈ pendingIds st.table ∧
      st'.table = updateFirst st.table id (applyDecision o notes action_date) ∧
      st'.file = save_data st'.table ∧
      p' = applyDecision o notes action_date p := by
  by_cases hmem : id ∈ pendingIds st.table
  · obtain ⟨q, hqmem, hqid, hqst⟩ := (mem_pendingIds_iff st.table id).mp hmem
    cases hfind : findById st.table id with
    | none => exact absurd hfind (findById_ne_none hqmem hqid)
    | some p =>
        refine ⟨p, rfl, hmem, ?_⟩
        cases o with
        | approved =>
            rw [decide_approved_eq st id notes action_date p hmem hfind] at heq
            obtain ⟨h1, h2⟩ := Prod.mk.injEq _ _ _ _ ▸ heq
            rw [← h1]
            exact ⟨rfl, rfl, (Except.ok.injEq _ _ ▸ h2).symm⟩
        | rejected =>
            by_cases hn : notes = ""
            · subst hn
              rw [decide_rejected_empty_eq st id action_date p hmem hfind] at heq
              exact absurd (Prod.mk.injEq _ _ _ _ ▸ heq).2 (by simp)
            · rw [decide_rejected_ok_eq st id notes action_date p hmem hfind hn] at heq
              obtain ⟨h1, h2⟩ := Prod.mk.injEq _ _ _ _ ▸ heq
              rw [← h1]
              exact ⟨rfl, rfl, (Except.ok.injEq _ _ ▸ h2).symm⟩
  · rw [decide_not_mem st id o notes action_date hmem] at heq
    exact absurd (Prod.mk.injEq _ _ _ _ ▸ heq).2 (by simp)

/-- A concrete pending permit for closed witness instances. -/
def samplePending : Permit :=
  { permitId := "WP-1", requester := "Ann", location := "Plant 2",
    workType := "Hot Work", description := "weld a flange",
    likelihood := "3", severity := "4", riskAssessment := "12",
    precautions := "Use Standard PPE", issueDate := "2024-01-01 08:00:00",
    status := "Pending", supervisorNotes := "", supervisorActionDate := "" }

/-- A concrete already-approved permit for closed witness instances. -/
def sampleDecided : Permit :=
  { permitId := "WP-0", requester := "Bob", location := "Plant 1",
    workType := "Electrical Work", description := "swap a breaker",
    likelihood := "2", severity := "2", riskAssessment := "4",
    precautions := "Lockout/Tagout Required", issueDate := "2023-12-30 09:00:00",
    status := "Approved", supervisorNotes := "ok",
    supervisorActionDate := "2023-12-31 10:00:00" }

/-- C3: with unique Permit IDs, a record whose status is not Pending cannot
be decided again — decide on its id returns notFound and leaves the state
(status, notes, action date, the whole table and file) unchanged — and a
successful decide starts from a Pending record, moves it to Approved or
Rejected, and any further decide on that id fails with notFound without
changing the state: per record the status transitions at most once. -/
theorem C3_decide_at_most_once (st : StoreState) (id : String) (o : Outcome)
    (notes action_date : String)
    (hnd : (st.table.map Permit.permitId).Nodup) :
    (∀ p, findById st.table id = some p → p.status ≠ "Pending" →
      decide st id o notes action_date = (st, .error .notFound)) ∧
    (∀ st' p', decide st id o notes action_date = (st', .ok p') →
      (∃ p, findById st.table id = some p ∧ p.status = "Pending" ∧
        p' = applyDecision o notes action_date p) ∧
      ((o = .approved ∧ p'.status = "Approved") ∨
       (o = .rejected ∧ p'.status = "Rejected")) ∧
      findById st'.table id = some p' ∧
      (∀ o2 notes2 date2, decide st' id o2 notes2 date2 = (st', .error .notFound))) := by
  constructor
  · intro p hfind hnp
    exact decide_of_decided st id o notes action_date hnd p hfind hnp
  · intro st' p' heq
    obtain ⟨p, hfind, hmem, htbl, hfile, hp'⟩ :=
      decide_ok_inv st st' id o notes action_date p' heq
    obtain ⟨q, hqmem, hqid, hqst⟩ := (mem_pendingIds_iff st.table id).mp hmem
    have hqp : q = p := findById_unique hnd hfind hqmem hqid
    have hpending : p.status = "Pending" := hqp ▸ hqst
    have hstat : (o = Outcome.approved ∧ p'.status = "Approved") ∨
        (o = Outcome.rejected ∧ p'.status = "Rejected") := by
      cases o with
      | approved => exact Or.inl ⟨rfl, by rw [hp']; rfl⟩
      | rejected => exact Or.inr ⟨rfl, by rw [hp']; rfl⟩
    have hfind2 : findById st'.table id = some p' := by
      rw [htbl, hp']
      exact findById_updateFirst _ (applyDecision_permitId o notes action_date) hfind
    have hnd2 : (st'.table.map Permit.permitId).Nodup := by
      rw [htbl, updateFirst_map_permitId (applyDecision_permitId o notes action_date)]
      exact hnd
    have hnp2 : p'.status ≠ "Pending" := by
      rcases hstat with ⟨_, hs⟩ | ⟨_, hs⟩ <;> rw [hs] <;> decide
    exact ⟨⟨p, hfind, hpending, hp'⟩, hstat, hfind2,
      fun o2 notes2 date2 => decide_of_decided st' id o2 notes2 date2 hnd2 p' hfind2 hnp2⟩

/-- C3 witness: on a one-row table whose record is already Approved, a
decide call on its id returns notFound and leaves the state unchanged. -/
theorem C3_decide_at_most_once_witness :
    decide ⟨[sampleDecided], save_data [sampleDecided]⟩ "WP-0" .approved ""
        "2024-01-03 10:00:00" =
      (⟨[sampleDecided], save_data [sampleDecided]⟩, .error .notFound) :=
  (C3_decide_at_most_once ⟨[sampleDecided], save_data [sampleDecided]⟩ "WP-0" .approved ""
      "2024-01-03 10:00:00" (by decide)).1 sampleDecided (by decide) (by decide)

/-- C4: rejecting a pending record with empty notes only surfaces the
validation warning and leaves the whole state unchanged; rejecting it with
non-empty notes succeeds, sets status Rejected, stores exactly the given
notes, and stamps the non-empty action date. -/
theorem C4_reject_requires_notes (st : StoreState) (id notes action_date : String)
    (p : Permit) (hfind : findById st.table id = some p) (hp : p.status = "Pending")
    (hdate : action_date ≠ "") :
    decide st id .rejected "" action_date =
      (st, .error (.validation ["Supervisor notes are required for rejection."])) ∧
    (notes ≠ "" →
      decide st id .rejected notes action_date =
        ({ table := updateFirst st.table id (applyDecision .rejected notes action_date),
           file := save_data (updateFirst st.table id (applyDecision .rejected notes action_date)) },
         .ok (applyDecision .rejected notes action_date p)) ∧
      (applyDecision .rejected notes action_date p).status = "Rejected" ∧
      (applyDecision .rejected notes action_date p).supervisorNotes = notes ∧
      (applyDecision .rejected notes action_date p).supervisorActionDate = action_date ∧
      (applyDecision .rejected notes action_date p).supervisorActionDate ≠ "") := by
  have hmem : id ∈ pendingIds st.table :=
    (mem_pendingIds_iff st.table id).mpr ⟨p, (findById_mem hfind).1, (findById_mem hfind).2, hp⟩
  refine ⟨decide_rejected_empty_eq st id action_date p hmem hfind, fun hn => ?_⟩
  exact ⟨decide_rejected_ok_eq st id notes action_date p hmem hfind hn, rfl, rfl, rfl, hdate⟩

/-- C4 witness: on a one-row pending table, rejection with empty notes is
the validation error with the state unchanged, and rejection with notes
"unsafe" stores exactly "unsafe". -/
theorem C4_reject_requires_notes_witness :
    decide ⟨[samplePending], save_data [samplePending]⟩ "WP-1" .rejected ""
        "2024-01-02 09:00:00" =
      (⟨[samplePending], save_data [samplePending]⟩,
       .error (.validation ["Supervisor notes are required for rejection."])) ∧
    (applyDecision .rejected "unsafe" "2024-01-02 09:00:00" samplePending).supervisorNotes =
      "unsafe" := by
  have h := C4_reject_requires_notes ⟨[samplePending], save_data [samplePending]⟩ "WP-1"
      "unsafe" "2024-01-02 09:00:00" samplePending (by decide) (by decide) (by decide)
  exact ⟨h.1, (h.2 (by decide)).2.2.1⟩

/-- C5: approving a pending record with empty notes succeeds and stores the
fixed placeholder "Approved without notes." instead of leaving the notes
empty; approving with non-empty notes stores the given notes. -/
theorem C5_approve_default_notes (st : StoreState) (id notes action_date : String)
    (p : Permit) (hfind : findById st.table id = some p) (hp : p.status = "Pending") :
    (decide st id .approved "" action_date =
       ({ table := updateFirst st.table id (applyDecision .approved "" action_date),
          file := save_data (updateFirst st.table id (applyDecision .approved "" action_date)) },
        .ok (applyDecision .approved "" action_date p)) ∧
     (applyDecision .approved "" action_date p).supervisorNotes = "Approved without notes." ∧
     (applyDecision .approved "" action_date p).status = "Approved") ∧
    (notes ≠ "" →
      decide st id .approved notes action_date =
        ({ table := updateFirst st.table id (applyDecision .approved notes action_date),
           file := save_data (updateFirst st.table id (applyDecision .approved notes action_date)) },
         .ok (applyDecision .approved notes action_date p)) ∧
      (applyDecision .approved notes action_date p).supervisorNotes = notes) := by
  have hmem : id ∈ pendingIds st.table :=
    (mem_pendingIds_iff st.table id).mpr ⟨p, (findById_mem hfind).1, (findById_mem hfind).2, hp⟩
  refine ⟨⟨decide_approved_eq st id "" action_date p hmem hfind, rfl, rfl⟩, fun hn => ?_⟩
  refine ⟨decide_approved_eq st id notes action_date p hmem hfind, ?_⟩
  simp [applyDecision, hn]

/-- C5 witness: on a one-row pending table, approval with empty notes
stores the fixed placeholder, and approval with notes "checked" stores
"checked". -/
theorem C5_approve_default_notes_witness :
    (applyDecision .approved "" "2024-01-02 09:00:00" samplePending).supervisorNotes =
      "Approved without notes." ∧
    (applyDecision .approved "checked" "2024-01-02 09:00:00" samplePending).supervisorNotes =
      "checked" := by
  have h := C5_approve_default_notes ⟨[samplePending], save_data [samplePending]⟩ "WP-1"
      "checked" "2024-01-02 09:00:00" samplePending (by decide) (by decide)
  exact ⟨h.1.2.1, (h.2 (by decide)).2⟩

/-- Absent columns have no index in the header. -/
theorem colIdx_eq_none {cols : List String} {name : String} (h : name ∉ cols) :
    colIdx cols name = none := by
  induction cols with
  | nil => rfl
  | cons c rest ih =>
      simp only [List.mem_cons, not_or] at h
      simp only [colIdx]
      rw [if_neg (fun hc => h.1 hc.symm), ih h.2]
      rfl

/-! ## Submission lemmas -/

/-- The Other option with empty details contributes its error message. -/
theorem buildPrecautions_other_err_mem {details : String} {l : List String}
    (hmem : otherOption ∈ l) (hd : details = "") :
    "If 'Other' precaution is selected, please specify the details." ∈
      (buildPrecautions details l).2 := by
  subst hd
  induction l with
  | nil => cases hmem
  | cons item rest ih =>
      by_cases hi : item = otherOption
      · simp only [buildPrecautions, if_pos hi]
        simp
      · simp only [buildPrecautions, if_neg hi]
        rcases List.mem_cons.mp hmem with rfl | h2
        · exact absurd rfl hi
        · simpa using ih h2

/-- When every selected Other item has its details, the loop produces no
error and one final precaution per selected item. -/
theorem buildPrecautions_ok {details : String} {l : List String}
    (h : otherOption ∈ l → details ≠ "") :
    (buildPrecautions details l).2 = [] ∧ (buildPrecautions details l).1.length = l.length := by
  induction l with
  | nil => exact ⟨rfl, rfl⟩
  | cons item rest ih =>
      have ih2 := ih (fun hm => h (List.mem_cons_of_mem _ hm))
      by_cases hi : item = otherOption
      · have hd : details ≠ "" := h (hi ▸ List.mem_cons_self _ _)
        simp only [buildPrecautions, if_pos hi, if_pos hd]
        exact ⟨ih2.1, by simp [ih2.2]⟩
      · simp only [buildPrecautions, if_neg hi]
        exact ⟨ih2.1, by simp [ih2.2]⟩

/-- With every required field present, a precaution selected, and details
whenever Other is selected, the submission validates cleanly. -/
theorem createErrors_eq_nil {inp : CreateInput}
    (hreq : inp.requester ≠ "") (hloc : inp.location ≠ "") (hwt : inp.work_type ≠ "")
    (hdesc : inp.description ≠ "") (hsel : inp.selected_precautions ≠ [])
    (hother : otherOption ∈ inp.selected_precautions → inp.other_precautions_details ≠ "") :
    createErrors inp = [] := by
  have hb := buildPrecautions_ok hother
  have h1 : (buildPrecautions inp.other_precautions_details inp.selected_precautions).1 ≠ [] := by
    intro hnil
    have hlen := hb.2
    rw [hnil] at hlen
    exact hsel (List.eq_nil_of_length_eq_zero hlen.symm)
  simp only [createErrors]
  rw [if_neg hreq, if_neg hloc, if_neg hwt, if_neg hdesc,
    if_neg (fun hc => h1 hc.1), hb.1]
  rfl

/-- runCreate on a cleanly validating submission. -/
theorem runCreate_ok_eq (st : StoreState) (inp : CreateInput)
    (permit_id issue_date : String) (hnil : createErrors inp = []) :
    runCreate st inp permit_id issue_date =
      ({ table := st.table ++ [newPermit inp permit_id issue_date],
         file := save_data (st.table ++ [newPermit inp permit_id issue_date]) },
       .ok (newPermit inp permit_id issue_date)) := by
  unfold runCreate
  rw [if_neg (fun hc => hc hnil)]

/-- A concrete cleanly validating submission for witness instances. -/
def sampleInput : CreateInput :=
  { requester := "Ann", location := "Plant 2", work_type := "Hot Work",
    description := "weld a flange", selected_precautions := ["Use Standard PPE"],
    other_precautions_details := "", likelihood := "3", severity := "4" }

/-- C6: a submission with an empty requester — or any other empty required
field, no precaution selected, or the Other precaution selected without
its elaboration — produces validation messages and appends nothing: the
in-memory table and the backing file are returned unchanged. -/
theorem C6_create_validation (st : StoreState) (inp : CreateInput)
    (permit_id issue_date : String)
    (h : inp.requester = "" ∨ inp.location = "" ∨ inp.work_type = "" ∨
         inp.description = "" ∨ inp.selected_precautions = [] ∨
         (otherOption ∈ inp.selected_precautions ∧ inp.other_precautions_details = "")) :
    createErrors inp ≠ [] ∧
    runCreate st inp permit_id issue_date =
      (st, .error (.validation (createErrors inp))) := by
  have hne : createErrors inp ≠ [] := by
    rcases h with h1 | h1 | h1 | h1 | h1 | ⟨hm, hd⟩
    · exact List.ne_nil_of_mem (a := "Requester Name is required.")
        (by simp [createErrors, h1])
    · exact List.ne_nil_of_mem (a := "Work Location is required.")
        (by simp [createErrors, h1])
    · exact List.ne_nil_of_mem (a := "Work Type must be selected.")
        (by simp [createErrors, h1])
    · exact List.ne_nil_of_mem (a := "Work Description is required.")
        (by simp [createErrors, h1])
    · exact List.ne_nil_of_mem
        (a := "At least one precaution must be selected, or 'Other' specified.")
        (by simp [createErrors, h1, buildPrecautions, otherOption])
    · refine List.ne_nil_of_mem
        (a := "If 'Other' precaution is selected, please specify the details.") ?_
      have hb := buildPrecautions_other_err_mem hm hd
      simp only [createErrors, List.mem_append]
      exact Or.inl (Or.inr hb)
  refine ⟨hne, ?_⟩
  unfold runCreate
  rw [if_pos hne]

/-- C6 witness: the sample submission with its requester blanked out is
refused and the empty store is unchanged. -/
theorem C6_create_validation_witness :
    createErrors { sampleInput with requester := "" } ≠ [] ∧
    runCreate ⟨[], .missing⟩ { sampleInput with requester := "" } "WP-2"
        "2024-01-01 08:00:00" =
      (⟨[], .missing⟩,
       .error (.validation (createErrors { sampleInput with requester := "" }))) :=
  C6_create_validation ⟨[], .missing⟩ { sampleInput with requester := "" } "WP-2"
    "2024-01-01 08:00:00" (Or.inl rfl)

/-- C7: a submission with all required fields present, a precaution
selected (with details whenever Other is selected), and a fresh permit id
succeeds: the new record has status Pending, the fresh id distinct from
every existing record's id, the risk engine's score for its factors, and
empty supervisor fields; it is appended at the end of the table and the
full table is saved to the file in the returned state. -/
theorem C7_create_success (st : StoreState) (inp : CreateInput)
    (permit_id issue_date : String)
    (hreq : inp.requester ≠ "") (hloc : inp.location ≠ "") (hwt : inp.work_type ≠ "")
    (hdesc : inp.description ≠ "") (hsel : inp.selected_precautions ≠ [])
    (hother : otherOption ∈ inp.selected_precautions → inp.other_precautions_details ≠ "")
    (hid : permit_id ∉ st.table.map Permit.permitId) :
    ∃ p, runCreate st inp permit_id issue_date =
        ({ table := st.table ++ [p], file := save_data (st.table ++ [p]) }, .ok p) ∧
      p.permitId = permit_id ∧ (∀ q ∈ st.table, q.permitId ≠ p.permitId) ∧
      p.status = "Pending" ∧ p.supervisorNotes = "" ∧ p.supervisorActionDate = "" ∧
      (∃ level color,
        calculate_risk_assessment_details inp.likelihood inp.severity =
          some (riskScoreInt inp.likelihood inp.severity, level, color)) ∧
      p.riskAssessment = toString (riskScoreInt inp.likelihood inp.severity) := by
  have hnil := createErrors_eq_nil hreq hloc hwt hdesc hsel hother
  refine ⟨newPermit inp permit_id issue_date,
    runCreate_ok_eq st inp permit_id issue_date hnil, rfl, ?_, rfl, rfl, rfl, ?_, rfl⟩
  · intro q hq hqid
    apply hid
    have hmm := List.mem_map_of_mem Permit.permitId hq
    rw [hqid] at hmm
    exact hmm
  · obtain ⟨lev, col, _, hc⟩ := calc_eq_some inp.likelihood inp.severity
    exact ⟨lev, col, hc⟩

/-- C7 witness: the sample submission against the empty store succeeds
with all the claimed fields. -/
theorem C7_create_success_witness :
    ∃ p, runCreate ⟨[], .missing⟩ sampleInput "WP-20240101080000000000"
        "2024-01-01 08:00:00" =
        ({ table := ([] : List Permit) ++ [p], file := save_data (([] : List Permit) ++ [p]) },
         .ok p) ∧
      p.permitId = "WP-20240101080000000000" ∧
      (∀ q ∈ ([] : List Permit), q.permitId ≠ p.permitId) ∧
      p.status = "Pending" ∧ p.supervisorNotes = "" ∧ p.supervisorActionDate = "" ∧
      (∃ level color,
        calculate_risk_assessment_details sampleInput.likelihood sampleInput.severity =
          some (riskScoreInt sampleInput.likelihood sampleInput.severity, level, color)) ∧
      p.riskAssessment = toString (riskScoreInt sampleInput.likelihood sampleInput.severity) :=
  C7_create_success ⟨[], .missing⟩ sampleInput "WP-20240101080000000000"
    "2024-01-01 08:00:00" (by decide) (by decide) (by decide) (by decide) (by decide)
    (by decide) (by decide)

/-- C8: a record returned by a successful create, after saving the table
and reloading it from the file, is found by its id equal in every field to
the record create returned. -/
theorem C8_create_roundtrip (st : StoreState) (inp : CreateInput)
    (permit_id issue_date : String) (st' : StoreState) (p : Permit)
    (hid : permit_id ∉ st.table.map Permit.permitId)
    (hrun : runCreate st inp permit_id issue_date = (st', .ok p)) :
    findById (load_data st'.file) p.permitId = some p := by
  by_cases hne : createErrors inp ≠ []
  · rw [show runCreate st inp permit_id issue_date =
        (st, .error (.validation (createErrors inp))) by unfold runCreate; rw [if_pos hne]]
      at hrun
    exact absurd (Prod.mk.injEq _ _ _ _ ▸ hrun).2 (by simp)
  · rw [runCreate_ok_eq st inp permit_id issue_date (not_ne_iff.mp hne)] at hrun
    obtain ⟨h1, h2⟩ := Prod.mk.injEq _ _ _ _ ▸ hrun
    have hp : newPermit inp permit_id issue_date = p := Except.ok.injEq _ _ ▸ h2
    have hfile : st'.file = save_data (st.table ++ [newPermit inp permit_id issue_date]) := by
      rw [← h1]
    rw [hfile, hp, load_save]
    have hnone : findById st.table p.permitId = none := by
      apply findById_eq_none
      rw [← hp]
      exact hid
    rw [findById_append_of_none hnone]
    simp [findById]

/-- C8 witness: the sample submission's record survives the save/reload
round trip. -/
theorem C8_create_roundtrip_witness :
    findById
      (load_data (save_data [newPermit sampleInput "WP-3" "2024-01-01 08:00:00"]))
      (newPermit sampleInput "WP-3" "2024-01-01 08:00:00").permitId =
      some (newPermit sampleInput "WP-3" "2024-01-01 08:00:00") :=
  C8_create_roundtrip ⟨[], .missing⟩ sampleInput "WP-3" "2024-01-01 08:00:00"
    _ _ (by decide) (runCreate_ok_eq _ _ _ _ (by decide))

/-- C9: loading tolerates a missing and an empty file as zero records, and
for a file with any header it yields one record per row, in which every
expected column absent from the header reads back as the empty string. -/
theorem C9_load_backfill :
    load_data .missing = [] ∧
    load_data .empty = [] ∧
    (∀ cols rows, (load_data (.table cols rows)).length = rows.length) ∧
    (∀ cols rows p, p ∈ load_data (.table cols rows) →
      ("Permit ID" ∉ cols → p.permitId = "") ∧
      ("Requester" ∉ cols → p.requester = "") ∧
      ("Location" ∉ cols → p.location = "") ∧
      ("Work Type" ∉ cols → p.workType = "") ∧
      ("Description" ∉ cols → p.description = "") ∧
      ("Likelihood" ∉ cols → p.likelihood = "") ∧
      ("Severity" ∉ cols → p.severity = "") ∧
      ("Risk Assessment" ∉ cols → p.riskAssessment = "") ∧
      ("Precautions" ∉ cols → p.precautions = "") ∧
      ("Issue Date" ∉ cols → p.issueDate = "") ∧
      ("Status" ∉ cols → p.status = "") ∧
      ("Supervisor Notes" ∉ cols → p.supervisorNotes = "") ∧
      ("Supervisor Action Date" ∉ cols → p.supervisorActionDate = "")) := by
  refine ⟨rfl, rfl, fun cols rows => by simp [load_data], ?_⟩
  intro cols rows p hp
  obtain ⟨r, hr, hpr⟩ := List.mem_map.mp hp
  subst hpr
  refine ⟨fun h => ?_, fun h => ?_, fun h => ?_, fun h => ?_, fun h => ?_, fun h => ?_,
    fun h => ?_, fun h => ?_, fun h => ?_, fun h => ?_, fun h => ?_, fun h => ?_,
    fun h => ?_⟩
  · show (match colIdx cols "Permit ID" with | some i => r.getD i "" | none => "") = ""
    rw [colIdx_eq_none h]
  · show (match colIdx cols "Requester" with | some i => r.getD i "" | none => "") = ""
    rw [colIdx_eq_none h]
  · show (match colIdx cols "Location" with | some i => r.getD i "" | none => "") = ""
    rw [colIdx_eq_none h]
  · show (match colIdx cols "Work Type" with | some i => r.getD i "" | none => "") = ""
    rw [colIdx_eq_none h]
  · show (match colIdx cols "Description" with | some i => r.getD i "" | none => "") = ""
    rw [colIdx_eq_none h]
  · show (match colIdx cols "Likelihood" with | some i => r.getD i "" | none => "") = ""
    rw [colIdx_eq_none h]
  · show (match colIdx cols "Severity" with | some i => r.getD i "" | none => "") = ""
    rw [colIdx_eq_none h]
  · show (match colIdx cols "Risk Assessment" with | some i => r.getD i "" | none => "") = ""
    rw [colIdx_eq_none h]
  · show (match colIdx cols "Precautions" with | some i => r.getD i "" | none => "") = ""
    rw [colIdx_eq_none h]
  · show (match colIdx cols "Issue Date" with | some i => r.getD i "" | none => "") = ""
    rw [colIdx_eq_none h]
  · show (match colIdx cols "Status" with | some i => r.getD i "" | none => "") = ""
    rw [colIdx_eq_none h]
  · show (match colIdx cols "Supervisor Notes" with | some i => r.getD i "" | none => "") = ""
    rw [colIdx_eq_none h]
  · show (match colIdx cols "Supervisor Action Date" with
      | some i => r.getD i "" | none => "") = ""
    rw [colIdx_eq_none h]

/-- C9 witness: a two-column legacy file loads with one record per row and
empty strings in the absent Supervisor Notes column. -/
theorem C9_load_backfill_witness :
    (load_data (.table ["Permit ID", "Requester"] [["WP-9", "Cara"]])).length = 1 ∧
    (ofRow (reorderRow ["Permit ID", "Requester"] ["WP-9", "Cara"])).supervisorNotes = "" := by
  constructor
  · exact C9_load_backfill.2.2.1 ["Permit ID", "Requester"] [["WP-9", "Cara"]]
  · exact (C9_load_backfill.2.2.2 ["Permit ID", "Requester"] [["WP-9", "Cara"]]
      (ofRow (reorderRow ["Permit ID", "Requester"] ["WP-9", "Cara"]))
      (by decide)).2.2.2.2.2.2.2.2.2.2.2.1 (by decide)
